import Mathlib

/-!
Shallow embedding of `ecl/resource_ecl_identity_user_v3.go`: the CRUD
callbacks of the identity-user resource adapter, its option-flag table and
the MFA-rule flattening helper.  The hosting framework's configuration
snapshot (`*schema.ResourceData`) is embedded as an explicit record of the
fields this resource declares, together with the per-field has-changed flags
the framework exposes through `d.HasChange`.  Remote calls are embedded by
passing the remote's answer in as a value.
-/

set_option autoImplicit false

namespace EclIdentityUserV3

/-- One entry of the `multi_factor_auth_rule` list: a group carrying a
`rule` field, itself a list of string rule tokens (schema: `MinItems: 1`). -/
structure MFAGroup where
  rule : List String
deriving DecidableEq

/-- The per-field has-changed flags exposed by the framework's
`d.HasChange`; one flag per schema field that Update inspects. -/
structure Changes where
  default_project_id : Bool
  description : Bool
  domain_id : Bool
  enabled : Bool
  extra : Bool
  name : Bool
  password : Bool
  ignore_change_password_upon_first_use : Bool
  ignore_password_expiry : Bool
  ignore_lockout_failure_attempts : Bool
  multi_factor_auth_enabled : Bool
  multi_factor_auth_rule : Bool
deriving DecidableEq

/-- The configuration snapshot (`*schema.ResourceData`) restricted to the
fields of this resource's schema.  The four optional boolean option flags
are stored as `Option Bool`: `none` when the field is not explicitly set,
`some v` when it is explicitly set to `v` (the spec requires the snapshot
to expose a has-value query distinct from a plain get).  `extra` is the
open string-keyed map, embedded with string values. -/
structure ResourceData where
  id : String
  default_project_id : String
  description : String
  domain_id : String
  enabled : Bool
  extra : List (String × String)
  name : String
  password : String
  region : String
  ignore_change_password_upon_first_use : Option Bool
  ignore_password_expiry : Option Bool
  ignore_lockout_failure_attempts : Option Bool
  multi_factor_auth_enabled : Option Bool
  multi_factor_auth_rule : List MFAGroup
  changes : Changes
deriving DecidableEq

/-- The closed enumeration `users.Option` of the SDK, restricted to the
keys this file uses. -/
inductive UserOption where
  | ignoreChangePasswordUponFirstUse
  | ignorePasswordExpiry
  | ignoreLockoutFailureAttempts
  | multiFactorAuthEnabled
  | multiFactorAuthRules
deriving DecidableEq

/-- A value stored in an options map: the four fixed flags carry booleans,
the MFA-rules key carries a flat sequence of rule lists. -/
inductive OptVal where
  | b (v : Bool)
  | rules (v : List (List String))
deriving DecidableEq

/-- The `userOptions` table of the source: the fixed mapping from the SDK
option enumeration to the schema field name, in source order. -/
def userOptions : List (UserOption × String) :=
  [(UserOption.ignoreChangePasswordUponFirstUse, "ignore_change_password_upon_first_use"),
   (UserOption.ignorePasswordExpiry, "ignore_password_expiry"),
   (UserOption.ignoreLockoutFailureAttempts, "ignore_lockout_failure_attempts"),
   (UserOption.multiFactorAuthEnabled, "multi_factor_auth_enabled")]

/-- Lookup in an options map keyed by the SDK option enumeration. -/
def lookupOpt : List (UserOption × OptVal) → UserOption → Option OptVal
  | [], _ => none
  | p :: rest, k => if p.1 = k then some p.2 else lookupOpt rest k

/-- Lookup in a string-keyed options map (the shape the remote returns). -/
def lookupStr : List (String × OptVal) → String → Option OptVal
  | [], _ => none
  | p :: rest, k => if p.1 = k then some p.2 else lookupStr rest k

/-- Modelled from the spec: the snapshot's explicit has-value query
(`d.GetOk`), supplied by the external plugin framework, which "expose[s] an
explicit has-value query distinct from a plain get, to avoid conflating
false with absent".  Returns the flag's value exactly when the field is
explicitly set.  Only the four option-flag field names are queried. -/
def getOk (d : ResourceData) (field : String) : Option Bool :=
  if field = "ignore_change_password_upon_first_use" then
    d.ignore_change_password_upon_first_use
  else if field = "ignore_password_expiry" then d.ignore_password_expiry
  else if field = "ignore_lockout_failure_attempts" then
    d.ignore_lockout_failure_attempts
  else if field = "multi_factor_auth_enabled" then d.multi_factor_auth_enabled
  else none

/-- The framework's `d.HasChange` for the four option-flag field names. -/
def hasChangeField (d : ResourceData) (field : String) : Bool :=
  if field = "ignore_change_password_upon_first_use" then
    d.changes.ignore_change_password_upon_first_use
  else if field = "ignore_password_expiry" then d.changes.ignore_password_expiry
  else if field = "ignore_lockout_failure_attempts" then
    d.changes.ignore_lockout_failure_attempts
  else if field = "multi_factor_auth_enabled" then
    d.changes.multi_factor_auth_enabled
  else false

/-- The framework's plain `d.Get` for the four option-flag field names:
an unset optional boolean reads as its zero value `false`. -/
def getFlagValue (d : ResourceData) (field : String) : Bool :=
  if field = "ignore_change_password_upon_first_use" then
    d.ignore_change_password_upon_first_use.getD false
  else if field = "ignore_password_expiry" then
    d.ignore_password_expiry.getD false
  else if field = "ignore_lockout_failure_attempts" then
    d.ignore_lockout_failure_attempts.getD false
  else if field = "multi_factor_auth_enabled" then
    d.multi_factor_auth_enabled.getD false
  else false

/-- `resourceIdentityUserV3BuildMFARules`: for each group append its `rule`
list, as-is, to the flat output sequence. -/
def resourceIdentityUserV3BuildMFARules (rules : List MFAGroup) : List (List String) :=
  rules.foldl (fun mfaRules rule => mfaRules ++ [rule.rule]) []

/-- `users.CreateOpts` restricted to the fields Create fills. -/
structure CreateOpts where
  defaultProjectID : String
  description : String
  domainID : String
  enabled : Option Bool
  extra : List (String × String)
  name : String
  password : String
  options : List (UserOption × OptVal)
deriving DecidableEq

/-- The options map Create builds: one entry per option flag for which the
snapshot's has-value query fires (lines 133-138), then, when the flattened
MFA-rule sequence is non-empty, the MFA-rules entry (lines 140-144). -/
def createOptions (d : ResourceData) : List (UserOption × OptVal) :=
  let options := userOptions.foldl
    (fun acc p =>
      match getOk d p.2 with
      | some v => acc ++ [(p.1, OptVal.b v)]
      | none => acc) []
  let mfaRules := resourceIdentityUserV3BuildMFARules d.multi_factor_auth_rule
  if mfaRules.length > 0 then
    options ++ [(UserOption.multiFactorAuthRules, OptVal.rules mfaRules)]
  else options

/-- The `createOpts` value at the point of the debug log (line 148): all
fields and the options map are filled; `Password` still holds its zero
value, because the source assigns it only after the log statement. -/
def createOptsLogged (d : ResourceData) : CreateOpts :=
  { defaultProjectID := d.default_project_id
    description := d.description
    domainID := d.domain_id
    enabled := some d.enabled
    extra := d.extra
    name := d.name
    password := ""
    options := createOptions d }

/-- The `createOpts` value actually sent to `users.Create` (line 153):
the logged value with the password filled in (line 151). -/
def createOptsSent (d : ResourceData) : CreateOpts :=
  { createOptsLogged d with password := d.password }

/-- `users.UpdateOpts` restricted to the fields Update fills.  String
fields default to `""`, the enabled pointer to `none`, the extra map to
`none` (a nil map), mirroring the Go zero value. -/
structure UpdateOpts where
  defaultProjectID : String
  description : String
  domainID : String
  enabled : Option Bool
  extra : Option (List (String × String))
  name : String
  password : String
  options : List (UserOption × OptVal)
deriving DecidableEq

/-- The zero `users.UpdateOpts` value `var updateOpts users.UpdateOpts`. -/
def UpdateOpts.zero : UpdateOpts :=
  { defaultProjectID := ""
    description := ""
    domainID := ""
    enabled := none
    extra := none
    name := ""
    password := ""
    options := [] }

/-- The options map Update builds (lines 248-263): one entry per option
flag whose field has changed, carrying the flag's current value; then, when
the MFA-rule field has changed and the recomputed flattened sequence is
non-empty, the MFA-rules entry. -/
def updateOptions (d : ResourceData) : List (UserOption × OptVal) :=
  let options := userOptions.foldl
    (fun acc p =>
      if hasChangeField d p.2 then acc ++ [(p.1, OptVal.b (getFlagValue d p.2))]
      else acc) []
  if d.changes.multi_factor_auth_rule then
    let mfaRules := resourceIdentityUserV3BuildMFARules d.multi_factor_auth_rule
    if mfaRules.length > 0 then
      options ++ [(UserOption.multiFactorAuthRules, OptVal.rules mfaRules)]
    else options
  else options

/-- The `hasChange` accumulator at the point of the debug log (line 267):
the source sets it in the branch of every changed field and changed option
flag (lines 217-255), but the `multi_factor_auth_rule` branch (lines
258-263) does not set it, and the password branch runs only after the log. -/
def updateHasChangeBeforePassword (d : ResourceData) : Bool :=
  d.changes.default_project_id || d.changes.description || d.changes.domain_id ||
  d.changes.enabled || d.changes.extra || d.changes.name ||
  d.changes.ignore_change_password_upon_first_use ||
  d.changes.ignore_password_expiry ||
  d.changes.ignore_lockout_failure_attempts ||
  d.changes.multi_factor_auth_enabled

/-- The `updateOpts` value at the point of the debug log (line 268): each
field holds the snapshot value when its has-changed flag fired and the Go
zero value otherwise (the source assigns the fields one by one under
independent `HasChange` guards, which is fieldwise this record); `Options`
has been assigned (line 265); `Password` is still zero (assigned at line
273, after the log). -/
def updateOptsBeforePassword (d : ResourceData) : UpdateOpts :=
  { defaultProjectID := if d.changes.default_project_id then d.default_project_id else ""
    description := if d.changes.description then d.description else ""
    domainID := if d.changes.domain_id then d.domain_id else ""
    enabled := if d.changes.enabled then some d.enabled else none
    extra := if d.changes.extra then some d.extra else none
    name := if d.changes.name then d.name else ""
    password := ""
    options := updateOptions d }

/-- The debug log of Update (lines 267-269): emitted only when `hasChange`
holds at that point, and showing `updateOpts` before the password is set. -/
def updateOptsLogged (d : ResourceData) : Option UpdateOpts :=
  if updateHasChangeBeforePassword d then some (updateOptsBeforePassword d)
  else none

/-- The final `hasChange` value (after the password branch, line 271-274). -/
def updateHasChange (d : ResourceData) : Bool :=
  updateHasChangeBeforePassword d || d.changes.password

/-- The `updateOpts` value sent to `users.Update` (line 277): the logged
value, with the password filled in when the password field changed. -/
def updateOptsSent (d : ResourceData) : UpdateOpts :=
  if d.changes.password then
    { updateOptsBeforePassword d with password := d.password }
  else updateOptsBeforePassword d

/-- Outcome of the remote `users.Update` call, passed in as a value. -/
inductive RemoteResult where
  | ok
  | err (msg : String)
deriving DecidableEq

/-- How an Update run ends before the trailing Read: either the remote
update call failed, or control proceeds to `resourceIdentityUserV3Read`,
recording whether an update call was issued and, if so, with what payload. -/
inductive UpdateFlow where
  | failed (msg : String)
  | proceedToRead (callIssued : Bool) (payload : Option UpdateOpts)
deriving DecidableEq

/-- `resourceIdentityUserV3Update` (lines 207-284), with the remote call's
outcome passed in: when `hasChange` holds, issue the update call with the
built payload (propagating a wrapped error on failure); in every non-error
case fall through to the Read call (line 283). -/
def resourceIdentityUserV3Update (d : ResourceData) (remote : RemoteResult) : UpdateFlow :=
  if updateHasChange d then
    match remote with
    | RemoteResult.err m => UpdateFlow.failed ("Error updating ECL user: " ++ m)
    | RemoteResult.ok => UpdateFlow.proceedToRead true (some (updateOptsSent d))
  else UpdateFlow.proceedToRead false none

/-- The remote user entity returned by `users.Get`, with its string-keyed
options map. -/
structure User where
  id : String
  defaultProjectID : String
  description : String
  domainID : String
  enabled : Bool
  extra : List (String × String)
  name : String
  options : List (String × OptVal)
deriving DecidableEq

/-- `d.Set(option, v.(bool))` for the four option-flag field names: writes
the boolean into the named snapshot field. -/
def setFlagField (d : ResourceData) (field : String) (v : Bool) : ResourceData :=
  if field = "ignore_change_password_upon_first_use" then
    { d with ignore_change_password_upon_first_use := some v }
  else if field = "ignore_password_expiry" then
    { d with ignore_password_expiry := some v }
  else if field = "ignore_lockout_failure_attempts" then
    { d with ignore_lockout_failure_attempts := some v }
  else if field = "multi_factor_auth_enabled" then
    { d with multi_factor_auth_enabled := some v }
  else d

/-- One iteration of Read's option loop (lines 186-190): when the returned
options map holds the flag's key with a boolean value, write it into the
snapshot; otherwise leave the snapshot as it is.  (A present key whose
value is not a boolean would fail the source's run-time type assertion;
no claim depends on that case.) -/
def readFlagStep (u : User) (d : ResourceData) (p : UserOption × String) : ResourceData :=
  match lookupStr u.options p.2 with
  | some (OptVal.b v) => setFlagField d p.2 v
  | _ => d

/-- The snapshot writes of a successful Read (lines 177-202): the scalar
and map fields, the region, the option-flag loop, and, when the returned
options map holds the MFA-rules key as a sequence, the rebuilt
`multi_factor_auth_rule` list with one group per flattened entry. -/
def readSets (d : ResourceData) (u : User) (region : String) : ResourceData :=
  let d1 : ResourceData :=
    { d with
      default_project_id := u.defaultProjectID
      description := u.description
      domain_id := u.domainID
      enabled := u.enabled
      extra := u.extra
      name := u.name
      region := region }
  let d2 := userOptions.foldl (readFlagStep u) d1
  match lookupStr u.options "multi_factor_auth_rules" with
  | some (OptVal.rules rs) =>
      { d2 with
        multi_factor_auth_rule := rs.foldl (fun acc v => acc ++ [MFAGroup.mk v]) [] }
  | _ => d2

/-- The failure `users.Get` reports, passed in as a value: either the
entity is missing remotely, or some other error occurred. -/
inductive FetchErr where
  | notFound
  | other (msg : String)
deriving DecidableEq

/-- Outcome of the `users.Get` call, passed in as a value. -/
inductive FetchResult where
  | found (u : User)
  | fail (e : FetchErr)
deriving DecidableEq

/-- How a Read run ends: success with the updated snapshot, removal of the
local record (returned as success, with the snapshot's id cleared), or a
hard error. -/
inductive ReadOutcome where
  | ok (d : ResourceData)
  | removedLocal (d : ResourceData)
  | failed (msg : String)
deriving DecidableEq

/-- Modelled from the spec: the helper `CheckDeleted` is code of this
repository that is not among the provided sources.  Per the spec, when the
remote reports the entity missing it signals deletion of the local record
(the snapshot is cleared rather than erroring the whole operation), and any
other failure is a hard error wrapped with a static descriptive prefix. -/
def CheckDeleted (d : ResourceData) (e : FetchErr) (name : String) : ReadOutcome :=
  match e with
  | FetchErr.notFound => ReadOutcome.removedLocal { d with id := "" }
  | FetchErr.other m => ReadOutcome.failed ("Error retrieving " ++ name ++ ": " ++ m)

/-- `resourceIdentityUserV3Read` (lines 163-205), with the fetch outcome
passed in: a failed fetch goes through `CheckDeleted` (line 172); a
successful fetch writes the snapshot fields and returns success. -/
def resourceIdentityUserV3Read (d : ResourceData) (fetch : FetchResult)
    (region : String) : ReadOutcome :=
  match fetch with
  | FetchResult.found u => ReadOutcome.ok (readSets d u region)
  | FetchResult.fail e => CheckDeleted d e "user"

/-- How one option-flag field reads back: a boolean under the flag's key
in the returned options map overwrites the field, anything else leaves the
previous value. -/
def flagRead : Option OptVal → Option Bool → Option Bool
  | some (OptVal.b v), _ => some v
  | _, prev => prev

/-! ## Helper lemmas -/

theorem foldl_append_singleton {α β : Type} (f : α → β) :
    ∀ (l : List α) (acc : List β),
      l.foldl (fun a x => a ++ [f x]) acc = acc ++ l.map f := by
  intro l
  induction l with
  | nil => intro acc; simp
  | cons x xs ih => intro acc; simp [List.foldl, ih]

theorem buildMFARules_eq_map (l : List MFAGroup) :
    resourceIdentityUserV3BuildMFARules l = l.map MFAGroup.rule := by
  simpa using foldl_append_singleton MFAGroup.rule l []

theorem fold_flags_eq (u : User) (d : ResourceData) :
    userOptions.foldl (readFlagStep u) d =
      { d with
        ignore_change_password_upon_first_use :=
          flagRead (lookupStr u.options "ignore_change_password_upon_first_use")
            d.ignore_change_password_upon_first_use
        ignore_password_expiry :=
          flagRead (lookupStr u.options "ignore_password_expiry")
            d.ignore_password_expiry
        ignore_lockout_failure_attempts :=
          flagRead (lookupStr u.options "ignore_lockout_failure_attempts")
            d.ignore_lockout_failure_attempts
        multi_factor_auth_enabled :=
          flagRead (lookupStr u.options "multi_factor_auth_enabled")
            d.multi_factor_auth_enabled } := by
  rcases hv1 : lookupStr u.options "ignore_change_password_upon_first_use" with _ | (b1 | r1) <;>
  rcases hv2 : lookupStr u.options "ignore_password_expiry" with _ | (b2 | r2) <;>
  rcases hv3 : lookupStr u.options "ignore_lockout_failure_attempts" with _ | (b3 | r3) <;>
  rcases hv4 : lookupStr u.options "multi_factor_auth_enabled" with _ | (b4 | r4) <;>
  simp [userOptions, readFlagStep, setFlagField, flagRead, hv1, hv2, hv3, hv4]

/-- A `Changes` record with every has-changed flag off. -/
def noChanges : Changes :=
  { default_project_id := false
    description := false
    domain_id := false
    enabled := false
    extra := false
    name := false
    password := false
    ignore_change_password_upon_first_use := false
    ignore_password_expiry := false
    ignore_lockout_failure_attempts := false
    multi_factor_auth_enabled := false
    multi_factor_auth_rule := false }

/-- A plain concrete snapshot used to instantiate theorems. -/
def sampleData : ResourceData :=
  { id := "u-1"
    default_project_id := ""
    description := ""
    domain_id := ""
    enabled := true
    extra := []
    name := "alice"
    password := ""
    region := "RegionOne"
    ignore_change_password_upon_first_use := none
    ignore_password_expiry := none
    ignore_lockout_failure_attempts := none
    multi_factor_auth_enabled := none
    multi_factor_auth_rule := []
    changes := noChanges }

/-! ## Claims -/

/-- C5: `resourceIdentityUserV3BuildMFARules` is pure: on a list of N
groups it returns a flat sequence of exactly N entries whose i-th entry is
the i-th group's rule list, order-preserved, and on the empty input it
returns the empty output (it cannot error). -/
theorem buildMFARules_shape (groups : List MFAGroup) :
    (resourceIdentityUserV3BuildMFARules groups).length = groups.length ∧
    (∀ i : Nat, (resourceIdentityUserV3BuildMFARules groups)[i]? =
      groups[i]?.map MFAGroup.rule) ∧
    resourceIdentityUserV3BuildMFARules ([] : List MFAGroup) = [] := by
  refine ⟨?_, ?_, rfl⟩
  · simp [buildMFARules_eq_map]
  · intro i
    simp [buildMFARules_eq_map]

/-- C6: when the remote reports the entity missing, Read removes the local
record (the snapshot's id is cleared) and returns success instead of an
error; every other fetch failure is returned as a hard error. -/
theorem read_missing_removes_local (d : ResourceData) (region m : String) :
    resourceIdentityUserV3Read d (FetchResult.fail FetchErr.notFound) region =
      ReadOutcome.removedLocal { d with id := "" } ∧
    resourceIdentityUserV3Read d (FetchResult.fail (FetchErr.other m)) region =
      ReadOutcome.failed ("Error retrieving user: " ++ m) := by
  exact ⟨rfl, rfl⟩

/-- C7: the enabled field is always explicit in outgoing requests: every
Create payload carries `some` boolean for enabled, and the Update payload
carries the explicit boolean exactly when the enabled field changed. -/
theorem enabled_always_explicit (d : ResourceData) :
    (createOptsSent d).enabled = some d.enabled ∧
    (updateOptsSent d).enabled =
      (if d.changes.enabled then some d.enabled else none) := by
  constructor
  · rfl
  · cases hp : d.changes.password <;>
      simp [updateOptsSent, updateOptsBeforePassword, hp]

/-- C1: in Create, each of the four fixed boolean option flags is included
in the outgoing options map exactly when it is explicitly set in the
snapshot, carrying the set value — so an explicitly-set `false` is included
and an absent flag is not. -/
theorem create_option_flags_presence (d : ResourceData) :
    lookupOpt (createOptions d) UserOption.ignoreChangePasswordUponFirstUse =
      Option.map OptVal.b d.ignore_change_password_upon_first_use ∧
    lookupOpt (createOptions d) UserOption.ignorePasswordExpiry =
      Option.map OptVal.b d.ignore_password_expiry ∧
    lookupOpt (createOptions d) UserOption.ignoreLockoutFailureAttempts =
      Option.map OptVal.b d.ignore_lockout_failure_attempts ∧
    lookupOpt (createOptions d) UserOption.multiFactorAuthEnabled =
      Option.map OptVal.b d.multi_factor_auth_enabled := by
  rcases h1 : d.ignore_change_password_upon_first_use with _ | v1 <;>
  rcases h2 : d.ignore_password_expiry with _ | v2 <;>
  rcases h3 : d.ignore_lockout_failure_attempts with _ | v3 <;>
  rcases h4 : d.multi_factor_auth_enabled with _ | v4 <;>
  by_cases hm : (resourceIdentityUserV3BuildMFARules d.multi_factor_auth_rule).length > 0 <;>
  simp [createOptions, userOptions, getOk, lookupOpt, h1, h2, h3, h4, hm]

/-- C8: two Create (or Update) runs that differ only in the snapshot's
password produce identical debug-log output, while the request payload of
each run carries that run's password (for Update, when the password field
changed). -/
theorem password_excluded_from_logs (d : ResourceData) (p1 p2 : String) :
    createOptsLogged { d with password := p1 } =
      createOptsLogged { d with password := p2 } ∧
    updateOptsLogged { d with password := p1 } =
      updateOptsLogged { d with password := p2 } ∧
    (createOptsSent { d with password := p1 }).password = p1 ∧
    (d.changes.password = true →
      (updateOptsSent { d with password := p1 }).password = p1) := by
  refine ⟨rfl, rfl, rfl, ?_⟩
  intro h
  simp [updateOptsSent, h]

/-- A concrete snapshot whose password field has changed. -/
def pwChangedData : ResourceData :=
  { sampleData with changes := { noChanges with password := true } }

/-- Witness for C8 at a concrete snapshot and two concrete passwords. -/
theorem password_excluded_from_logs_witness :
    pwChangedData.changes.password = true ∧
    createOptsLogged { pwChangedData with password := "s3cret" } =
      createOptsLogged { pwChangedData with password := "hunter2" } ∧
    (updateOptsSent { pwChangedData with password := "s3cret" }).password =
      "s3cret" := by
  refine ⟨rfl, ?_, ?_⟩
  · exact (password_excluded_from_logs pwChangedData "s3cret" "hunter2").1
  · exact (password_excluded_from_logs pwChangedData "s3cret" "hunter2").2.2.2 rfl

/-- C9: an Update in which only the description field changed sends a
partial payload holding only the new description — every other field of the
payload, the option-flag entries included, keeps its zero value — and the
remote update call is issued with exactly that payload. -/
theorem update_description_only_payload (d : ResourceData)
    (h : d.changes = { noChanges with description := true }) :
    updateOptsSent d = { UpdateOpts.zero with description := d.description } ∧
    resourceIdentityUserV3Update d RemoteResult.ok =
      UpdateFlow.proceedToRead true
        (some { UpdateOpts.zero with description := d.description }) := by
  have hsent : updateOptsSent d =
      { UpdateOpts.zero with description := d.description } := by
    simp [updateOptsSent, updateOptsBeforePassword, updateOptions, userOptions,
      hasChangeField, getFlagValue, h, noChanges, UpdateOpts.zero]
  refine ⟨hsent, ?_⟩
  have hc : updateHasChange d = true := by
    simp [updateHasChange, updateHasChangeBeforePassword, h, noChanges]
  simp [resourceIdentityUserV3Update, hc, hsent]

/-- A concrete snapshot in which only the description has changed. -/
def descChangedData : ResourceData :=
  { sampleData with
    description := "new"
    changes := { noChanges with description := true } }

/-- Witness for C9 at a concrete snapshot changing description to "new". -/
theorem update_description_only_payload_witness :
    descChangedData.changes = { noChanges with description := true } ∧
    updateOptsSent descChangedData = { UpdateOpts.zero with description := "new" } := by
  refine ⟨rfl, ?_⟩
  exact (update_description_only_payload descChangedData rfl).1

/-- C3 (amended): on a successful Read, when the returned options map holds
the MFA-rules key as a sequence, `multi_factor_auth_rule` is rebuilt with
exactly one group per flattened entry, in order; when it does not, the
field is left unchanged — it keeps its previous value rather than being
reset to empty. -/
theorem read_mfa_rebuild_or_unchanged (d : ResourceData) (u : User) (region : String) :
    (readSets d u region).multi_factor_auth_rule =
      match lookupStr u.options "multi_factor_auth_rules" with
      | some (OptVal.rules rs) => rs.map MFAGroup.mk
      | _ => d.multi_factor_auth_rule := by
  rcases hm : lookupStr u.options "multi_factor_auth_rules" with _ | (bm | rm) <;>
  simp [readSets, fold_flags_eq, hm, foldl_append_singleton]

/-- A concrete snapshot already holding one MFA group. -/
def mfaSnapData : ResourceData :=
  { sampleData with multi_factor_auth_rule := [MFAGroup.mk ["otp"]] }

/-- A concrete remote user whose options map has no MFA-rules key. -/
def noMfaUser : User :=
  { id := "u-1"
    defaultProjectID := ""
    description := ""
    domainID := ""
    enabled := true
    extra := []
    name := "alice"
    options := [] }

/-- Counterexample to C3 as stated: a Read whose returned options map does
not contain the MFA-rules key leaves a previously non-empty
`multi_factor_auth_rule` untouched — the field is not left empty. -/
theorem read_mfa_absent_keeps_nonempty :
    lookupStr noMfaUser.options "multi_factor_auth_rules" = none ∧
    (readSets mfaSnapData noMfaUser "RegionOne").multi_factor_auth_rule =
      [MFAGroup.mk ["otp"]] ∧
    ([MFAGroup.mk ["otp"]] : List MFAGroup) ≠ [] := by
  decide

/-- C10: on a successful Read, each of the four option-flag fields is
overwritten exactly when its key is present in the returned options map
with a boolean value, and a flag whose key is absent keeps the snapshot's
previous value — it is not cleared or reset. -/
theorem read_flags_frame (d : ResourceData) (u : User) (region : String) :
    (readSets d u region).ignore_change_password_upon_first_use =
      flagRead (lookupStr u.options "ignore_change_password_upon_first_use")
        d.ignore_change_password_upon_first_use ∧
    (readSets d u region).ignore_password_expiry =
      flagRead (lookupStr u.options "ignore_password_expiry")
        d.ignore_password_expiry ∧
    (readSets d u region).ignore_lockout_failure_attempts =
      flagRead (lookupStr u.options "ignore_lockout_failure_attempts")
        d.ignore_lockout_failure_attempts ∧
    (readSets d u region).multi_factor_auth_enabled =
      flagRead (lookupStr u.options "multi_factor_auth_enabled")
        d.multi_factor_auth_enabled := by
  rcases hm : lookupStr u.options "multi_factor_auth_rules" with _ | (bm | rm) <;>
  simp [readSets, fold_flags_eq, hm]

/-- A concrete snapshot whose only changed field is the MFA rule list. -/
def mfaOnlyChangedData : ResourceData :=
  { sampleData with
    multi_factor_auth_rule := [MFAGroup.mk ["otp", "sms"]]
    changes := { noChanges with multi_factor_auth_rule := true } }

/-- C2, evaluated at its failing input: when only `multi_factor_auth_rule`
changed, the recomputed rules do land in the options payload, but the
source's MFA branch never marks `hasChange`, so no remote update call is
issued. -/
theorem update_mfa_only_change_no_call :
    lookupOpt (updateOptions mfaOnlyChangedData) UserOption.multiFactorAuthRules =
      some (OptVal.rules [["otp", "sms"]]) ∧
    updateHasChange mfaOnlyChangedData = false ∧
    resourceIdentityUserV3Update mfaOnlyChangedData RemoteResult.ok =
      UpdateFlow.proceedToRead false none := by
  decide

/-- The claim's notion of "some tracked field changed": the disjunction of
the has-changed flags of every field Update inspects, the MFA rule list
included. -/
def trackedFieldChanged (d : ResourceData) : Bool :=
  d.changes.default_project_id || d.changes.description || d.changes.domain_id ||
  d.changes.enabled || d.changes.extra || d.changes.name ||
  d.changes.password ||
  d.changes.ignore_change_password_upon_first_use ||
  d.changes.ignore_password_expiry ||
  d.changes.ignore_lockout_failure_attempts ||
  d.changes.multi_factor_auth_enabled ||
  d.changes.multi_factor_auth_rule

/-- A second concrete snapshot whose only changed field is the MFA rule
list. -/
def mfaOnlyChangedData2 : ResourceData :=
  { sampleData with
    multi_factor_auth_rule := [MFAGroup.mk ["required"]]
    changes := { noChanges with multi_factor_auth_rule := true } }

/-- C4, evaluated at its failing input: a tracked field (the MFA rule list)
changed, yet Update issues no remote call — the "call issued iff some
tracked field changed" equivalence fails; control still falls through to
the trailing Read. -/
theorem update_call_missed_for_mfa_change :
    trackedFieldChanged mfaOnlyChangedData2 = true ∧
    resourceIdentityUserV3Update mfaOnlyChangedData2 RemoteResult.ok =
      UpdateFlow.proceedToRead false none := by
  decide

end EclIdentityUserV3
